import Mathlib

/-!
Verification of the integrations repository: a shallow embedding of the
va-okta visitor-authentication handlers (`src/integrations/va-okta/src/index.tsx`)
and the GitLab webhook lifecycle reconciliation
(`src/integrations/gitlab/src/events.ts`), together with theorems settling
the specified properties.

Modelling conventions:
- A JavaScript `string | undefined` value is `Option String`; JS falsiness
  (`undefined` or the empty string) is `falsyStr`.
- A JS number that is truthiness-tested is `Option Nat` with `0` falsy.
- External calls (the token-exchange POST, `jwt.sign`) are recorded in an
  effect trace; their results are oracle inputs to the handler.
- Times are integers (seconds); `Math.floor(Date.now() / 1000)` is the
  oracle field `now`.
-/

namespace Integrations

/-- JS falsiness for `string | undefined`: `undefined`, `null` and `""` are falsy. -/
def falsyStr : Option String → Bool
  | none => true
  | some s => s == ""

/-- JS truthiness for `string | undefined`. -/
def truthyStr (o : Option String) : Bool := !(falsyStr o)

/-- JS truthiness for `number | undefined`: `undefined` and `0` are falsy. -/
def truthyNum : Option Nat → Bool
  | none => false
  | some n => n != 0

/-- JS template-literal stringification of a possibly-undefined string,
as in the source's form field built from the query parameter. -/
def jsTemplateStr : Option String → String
  | none => "undefined"
  | some s => s

/-! ### The state-parameter decoding (index.tsx lines 292-293) -/

/-- Auxiliary recursion for `jsIndexOf`, tracking the current index. -/
def jsIndexOfAux (c : Char) : List Char → Nat → Int
  | [], _ => -1
  | x :: xs, i => if x = c then (i : Int) else jsIndexOfAux c xs (i + 1)

/-- JS `String.prototype.indexOf` for a single character: the index of the
first occurrence, or `-1` when absent. -/
def jsIndexOf (s : String) (c : Char) : Int := jsIndexOfAux c s.toList 0

/-- JS `String.prototype.substring(start)` for a non-negative start index:
the suffix of the string from that index. -/
def jsSubstring (s : String) (start : Nat) : String := ⟨s.toList.drop start⟩

/-- The location decoded from the `state` query parameter, from
`index.tsx` line 293:
`const location = state ? state.substring(state.indexOf('-') + 1) : '';`. -/
def decodeLocation (state : Option String) : String :=
  match state with
  | none => ""
  | some s => if s = "" then "" else jsSubstring s (jsIndexOf s '-' + 1).toNat

/-! ### Claims and re-signing (index.tsx lines 274-280, 356-366) -/

/-- A JSON-ish claim value carried in a JWT payload. -/
inductive ClaimValue
  | num (n : Int)
  | str (s : String)
  | boolean (b : Bool)
deriving DecidableEq, Repr

/-- `sanitizeJWTTokenClaims` from `index.tsx` lines 356-366: copies every
claim entry whose key is not `iat` and not `exp`. -/
def sanitizeJWTTokenClaims (claims : List (String × ClaimValue)) :
    List (String × ClaimValue) :=
  claims.filter (fun kv => !(["iat", "exp"].contains kv.1))

/-- The payload passed to `jwt.sign` in `index.tsx` lines 274-280: the
sanitized claims spread into a fresh object together with
`exp: Math.floor(Date.now() / 1000) + 1 * (60 * 60)`. -/
def resignPayload (claims : List (String × ClaimValue)) (now : Int) :
    List (String × ClaimValue) :=
  sanitizeJWTTokenClaims claims ++ [("exp", ClaimValue.num (now + 3600))]

/-! ### The visitor-auth callback handler (index.tsx lines 214-304) -/

/-- The per-site installation configuration for the Okta integration
(`OktaSiteInstallationConfiguration` in `index.tsx`). -/
structure OktaSiteInstallationConfiguration where
  client_id : Option String
  okta_domain : Option String
  client_secret : Option String
deriving DecidableEq, Repr

/-- The identity provider's reply to the token-exchange POST: its HTTP
status and the `access_token` field of its parsed JSON body. -/
structure OktaTokenResp where
  status : Nat
  access_token : Option String
deriving DecidableEq, Repr

/-- `Response.ok` of the fetch API: status in the range 200-299. -/
def respOk (r : OktaTokenResp) : Bool := 200 ≤ r.status && r.status < 300

/-- Observable side effects of the callback handler. -/
inductive Effect
  | tokenExchange (url : String) (form : List (String × String))
  | signToken (payload : List (String × ClaimValue))
deriving DecidableEq, Repr

/-- The HTTP outcome of the callback handler. -/
inductive HandlerResult
  | resp (status : Nat) (body : String)
  | redirect (url : String)
deriving DecidableEq, Repr

/-- Environment and oracle inputs of one callback-request execution:
installation data read from the host runtime, plus the results of the
external calls the handler makes. -/
structure CallbackEnv where
  config : OktaSiteInstallationConfiguration
  installationURL : String
  publishedUrl : Option String
  signingKey : Option String
  now : Int
  oktaResponse : OktaTokenResp
  decodedClaims : List (String × ClaimValue)
  signResult : Option String
deriving DecidableEq, Repr

/-- The `/visitor-auth/response` route handler from `index.tsx` lines
214-304 (the branch where a site installation with a site is present),
returning the HTTP outcome together with the trace of external effects.
`signResult = none` models `jwt.sign` throwing, which the `catch` turns
into the 500 response. -/
def handleVisitorAuthResponse (env : CallbackEnv) (code : Option String)
    (state : Option String) : HandlerResult × List Effect :=
  if falsyStr env.config.client_id || falsyStr env.config.client_secret ||
      falsyStr env.config.okta_domain then
    (.resp 400 "Error: Either client id, client secret or okta domain is missing", [])
  else
    let form := [("grant_type", "authorization_code"),
                 ("client_id", env.config.client_id.getD ""),
                 ("client_secret", env.config.client_secret.getD ""),
                 ("code", jsTemplateStr code),
                 ("redirect_uri", env.installationURL ++ "/visitor-auth/response")]
    let exch := Effect.tokenExchange
      ("https://" ++ env.config.okta_domain.getD "" ++ "/oauth2/v1/token/") form
    if !(respOk env.oktaResponse) then
      (.resp 401 "Error: Could not fetch token from Okta", [exch])
    else if falsyStr env.oktaResponse.access_token then
      (.resp 401 "Error: No Access Token found in response from Okta", [exch])
    else if falsyStr env.signingKey then
      (.resp 400 "Error: Missing private key from site installation", [exch])
    else
      let payload := resignPayload env.decodedClaims env.now
      let se := Effect.signToken payload
      match env.signResult with
      | none => (.resp 500 "Error: Could not sign JWT token", [exch, se])
      | some tok =>
        if falsyStr env.publishedUrl || tok == "" then
          (.resp 500 "Error: Either JWT token or site's published URL is missing",
           [exch, se])
        else
          (.redirect (env.publishedUrl.getD "" ++ decodeLocation state
             ++ "?jwt_token=" ++ tok), [exch, se])

/-! ### The authorization redirect initiator (index.tsx lines 329-353) -/

/-- A redirect URL as a base plus its appended query parameters, in
append order. -/
structure RedirectURL where
  base : String
  params : List (String × String)
deriving DecidableEq, Repr

/-- The `fetch_visitor_authentication` handler from `index.tsx` lines
329-353: either throws `ExposableError` (modelled as `Except.error` with
the error message) or redirects to the identity provider's authorize URL. -/
def fetch_visitor_authentication (config : OktaSiteInstallationConfiguration)
    (installationURL : String) (eventLocation : Option String) :
    Except String RedirectURL :=
  let location := match eventLocation with
    | some s => if s == "" then "" else s
    | none => ""
  if falsyStr config.client_id || falsyStr config.okta_domain then
    .error "OIDC configuration is missing"
  else
    .ok { base := "https://" ++ config.okta_domain.getD "" ++ "/oauth2/v1/authorize",
          params := [("client_id", config.client_id.getD ""),
                     ("response_type", "code"),
                     ("redirect_uri", installationURL ++ "/visitor-auth/response"),
                     ("response_mode", "query"),
                     ("scope", "openid"),
                     ("state", "state-" ++ location)] }

/-! ### GitLab webhook lifecycle reconciliation (events.ts) -/

/-- Installation status values of the host API enum used by `events.ts`. -/
inductive IntegrationInstallationStatus
  | Active
  | Pending
  | Paused
deriving DecidableEq, Repr

/-- The GitLab space-installation configuration fields read by
`events.ts`: project, auth token, host, ref, and the stored webhook id. -/
structure GitLabSpaceInstallationConfiguration where
  project : Option String
  auth_token : Option String
  gitlab_host : Option String
  ref : Option String
  hook_id : Option Nat
deriving DecidableEq, Repr

/-- `shouldUpdateGitLabWebHook` from `events.ts` lines 15-30. The last
disjunct mirrors the JS truthiness of `!previous.conf.ref && newConf.ref`. -/
def shouldUpdateGitLabWebHook (newConf : GitLabSpaceInstallationConfiguration)
    (previousStatus : IntegrationInstallationStatus)
    (previousConf : GitLabSpaceInstallationConfiguration) : Bool :=
  newConf.project != previousConf.project ||
  newConf.auth_token != previousConf.auth_token ||
  newConf.gitlab_host != previousConf.gitlab_host ||
  (previousStatus == .Pending && falsyStr previousConf.ref && truthyStr newConf.ref)

/-- The `previous` field of a `space_installation_setup` event. -/
structure SetupEventPrevious where
  status : IntegrationInstallationStatus
  configuration : Option GitLabSpaceInstallationConfiguration
deriving DecidableEq, Repr

/-- The parts of a `space_installation_setup` event that `events.ts` reads. -/
structure SpaceInstallationSetupEvent where
  status : IntegrationInstallationStatus
  installationId : String
  spaceId : String
  previous : SetupEventPrevious
deriving DecidableEq, Repr

/-- The webhook actions `handleSpaceInstallationSetupEvent` can take, in
execution order: uninstall the old webhook, install a new one, persist the
updated configuration to the host API. -/
inductive WebhookAction
  | uninstall (hookId : Nat) (conf : GitLabSpaceInstallationConfiguration)
  | install (url : String) (conf : GitLabSpaceInstallationConfiguration)
  | updateConfig (conf : GitLabSpaceInstallationConfiguration)
deriving DecidableEq, Repr

/-- `handleSpaceInstallationSetupEvent` from `events.ts` lines 36-101,
as the ordered trace of webhook actions it performs, or the error it
throws. `configuration` is `environment.spaceInstallation.configuration`
(possibly undefined), `publicEndpoint` is `urls.publicEndpoint`, and
`newHookId` is the id returned by `installGitLabWebhook`. -/
def handleSpaceInstallationSetupEvent (event : SpaceInstallationSetupEvent)
    (configuration : Option GitLabSpaceInstallationConfiguration)
    (publicEndpoint : String) (newHookId : Nat) :
    Except String (List WebhookAction) :=
  if event.status == .Pending then
    .ok []
  else if event.status == .Active then
    match configuration with
    | none =>
      .error ("No GitLab project or auth token provided for Space installation "
        ++ event.spaceId ++ "/" ++ event.installationId)
    | some conf =>
      if falsyStr conf.project || falsyStr conf.auth_token then
        .error ("No GitLab project or auth token provided for Space installation "
          ++ event.spaceId ++ "/" ++ event.installationId)
      else
        let proceed : Bool := match event.previous.configuration with
          | some previousConfig =>
            shouldUpdateGitLabWebHook conf event.previous.status previousConfig
          | none => true
        if !proceed then
          .ok []
        else
          let pre := match event.previous.configuration with
            | some previousConfig =>
              match previousConfig.hook_id with
              | some h =>
                if h != 0 then [WebhookAction.uninstall h previousConfig] else []
              | none => []
            | none => []
          .ok (pre ++
            [WebhookAction.install (publicEndpoint ++ "/webhook") conf,
             WebhookAction.updateConfig { conf with hook_id := some newHookId }])
  else
    .ok []

/-- The action trace of a successful setup-event run (empty on error). -/
def okTrace : Except String (List WebhookAction) → List WebhookAction
  | .ok l => l
  | .error _ => []

/-- A configuration with every field absent, for concrete evaluations. -/
def gNone : GitLabSpaceInstallationConfiguration :=
  { project := none, auth_token := none, gitlab_host := none, ref := none,
    hook_id := none }

/-- A populated GitLab configuration, for concrete evaluations. -/
def gA : GitLabSpaceInstallationConfiguration :=
  { project := some "grp/proj", auth_token := some "tok",
    gitlab_host := some "https://gitlab.com", ref := some "main", hook_id := none }

/-- A previous GitLab configuration with another project and a stored
webhook id, for concrete evaluations. -/
def gPrev : GitLabSpaceInstallationConfiguration :=
  { project := some "grp/old", auth_token := some "tok",
    gitlab_host := some "https://gitlab.com", ref := some "main", hook_id := some 5 }

/-- An active setup event whose previous configuration is `gPrev`. -/
def evActive : SpaceInstallationSetupEvent :=
  { status := IntegrationInstallationStatus.Active, installationId := "i1",
    spaceId := "s1",
    previous := { status := IntegrationInstallationStatus.Active,
                  configuration := some gPrev } }

/-- A fully-populated Okta callback environment whose token exchange
succeeds, for concrete evaluations. -/
def envA : CallbackEnv :=
  { config := { client_id := some "cid", okta_domain := some "acme.okta.com",
                client_secret := some "sec" },
    installationURL := "https://app.example.com/i/okta",
    publishedUrl := some "https://docs.example.com",
    signingKey := some "key",
    now := 1700000000,
    oktaResponse := { status := 200, access_token := some "tok" },
    decodedClaims := [("sub", ClaimValue.str "u1"), ("email", ClaimValue.str "a@b.com"),
                      ("iat", ClaimValue.num 1000), ("exp", ClaimValue.num 2000)],
    signResult := some "signed" }

/-!
## Theorems
-/

/-- `jsIndexOfAux` returns `-1` when the character occurs nowhere in the list. -/
theorem jsIndexOfAux_of_not_mem {c : Char} :
    ∀ (l : List Char) (i : Nat), (∀ x ∈ l, x ≠ c) → jsIndexOfAux c l i = -1 := by
  intro l
  induction l with
  | nil => intro i _; rfl
  | cons x xs ih =>
    intro i h
    rw [jsIndexOfAux, if_neg (h x (by simp))]
    exact ih (i + 1) (fun y hy => h y (by simp [hy]))

/-- C2 counterexample: the non-empty state value `"abc"` contains no `-`,
yet the decoded location is `"abc"`, not the empty string: `indexOf`
returns `-1`, so `substring(-1 + 1)` returns the whole string. -/
theorem decodeLocation_no_dash_counterexample :
    decodeLocation (some "abc") = "abc" ∧ ¬ decodeLocation (some "abc") = "" := by
  constructor
  · rfl
  · intro h
    simp [decodeLocation, jsSubstring, jsIndexOf, jsIndexOfAux] at h

/-- C2 (amended): for every non-empty `state` value containing no `-`
character, the decoded location is the entire state string. -/
theorem decodeLocation_no_dash (s : String) (hne : s ≠ "")
    (hnd : ∀ c ∈ s.toList, c ≠ '-') : decodeLocation (some s) = s := by
  obtain ⟨d⟩ := s
  simp only [decodeLocation]
  rw [if_neg hne, jsIndexOf, jsIndexOfAux_of_not_mem _ 0 hnd]
  rfl

/-- C2 witness: the amended statement evaluated at the state value `"abc"`. -/
theorem decodeLocation_no_dash_witness : decodeLocation (some "abc") = "abc" :=
  decodeLocation_no_dash "abc" (by decide) (by decide)

/-- C3: for every `state` value of the form `state-<location>`, the decoded
location is everything after the first `-`, so `-` characters inside the
location are preserved verbatim; in particular the state value
`"state-" ++ "/docs/page"` decodes to `/docs/page`. -/
theorem decodeLocation_state_form :
    (∀ loc : String, decodeLocation (some ("state-" ++ loc)) = loc) ∧
    decodeLocation (some "state-/docs/page") = "/docs/page" := by
  constructor
  · intro loc
    obtain ⟨d⟩ := loc
    have hne : ("state-" ++ String.mk d) ≠ "" := by
      intro h
      have : ("state-" ++ String.mk d).data = "".data := by rw [h]
      simp [String.data_append] at this
    simp only [decodeLocation]
    rw [if_neg hne]
    rfl
  · rfl

/-- C1: when any of `client_id`, `client_secret`, `okta_domain` is missing
from the site-installation configuration, the callback handler answers
HTTP 400 and never issues the outbound token-exchange POST. -/
theorem callback_missing_config (env : CallbackEnv) (code state : Option String)
    (h : falsyStr env.config.client_id = true ∨
         falsyStr env.config.client_secret = true ∨
         falsyStr env.config.okta_domain = true) :
    (handleVisitorAuthResponse env code state).1 =
      HandlerResult.resp 400
        "Error: Either client id, client secret or okta domain is missing" ∧
    ∀ u f, Effect.tokenExchange u f ∉ (handleVisitorAuthResponse env code state).2 := by
  have hcond : (falsyStr env.config.client_id || falsyStr env.config.client_secret ||
      falsyStr env.config.okta_domain) = true := by
    rcases h with h | h | h <;> simp [h]
  rw [handleVisitorAuthResponse, if_pos hcond]
  exact ⟨rfl, by simp⟩

/-- C1 witness: a configuration with no client id answers 400. -/
theorem callback_missing_config_witness :
    (handleVisitorAuthResponse
      { envA with config := { client_id := none, okta_domain := some "acme.okta.com",
                              client_secret := some "sec" } } none none).1 =
      HandlerResult.resp 400
        "Error: Either client id, client secret or okta domain is missing" :=
  (callback_missing_config _ none none (Or.inl (by decide))).1

/-- C5: with a complete configuration, a non-2xx token-exchange status
yields HTTP 401 with exactly the body
`Error: Could not fetch token from Okta` (no provider detail), and a 2xx
status whose body lacks a non-empty `access_token` also yields HTTP 401. -/
theorem callback_upstream_failure (env : CallbackEnv) (code state : Option String)
    (hcid : falsyStr env.config.client_id = false)
    (hcs : falsyStr env.config.client_secret = false)
    (hdom : falsyStr env.config.okta_domain = false) :
    (¬ (200 ≤ env.oktaResponse.status ∧ env.oktaResponse.status < 300) →
      (handleVisitorAuthResponse env code state).1 =
        HandlerResult.resp 401 "Error: Could not fetch token from Okta") ∧
    ((200 ≤ env.oktaResponse.status ∧ env.oktaResponse.status < 300) →
      falsyStr env.oktaResponse.access_token = true →
      (handleVisitorAuthResponse env code state).1 =
        HandlerResult.resp 401 "Error: No Access Token found in response from Okta") := by
  constructor
  · intro h
    have hok : respOk env.oktaResponse = false := by
      cases hr : respOk env.oktaResponse with
      | false => rfl
      | true =>
        exfalso
        apply h
        simpa [respOk] using hr
    simp [handleVisitorAuthResponse, hcid, hcs, hdom, hok]
  · intro h hat
    have hok : respOk env.oktaResponse = true := by
      simp only [respOk, Bool.and_eq_true, decide_eq_true_eq]
      omega
    simp [handleVisitorAuthResponse, hcid, hcs, hdom, hok, hat]

/-- C5 witness: a 401 from the provider turns into the generic 401 body. -/
theorem callback_upstream_failure_witness :
    (handleVisitorAuthResponse
      { envA with oktaResponse := { status := 401, access_token := none } }
      none none).1 =
      HandlerResult.resp 401 "Error: Could not fetch token from Okta" :=
  (callback_upstream_failure _ none none (by decide) (by decide) (by decide)).1
    (by decide)

/-- C10: when the token exchange succeeded but the site installation's
private signing key is absent, the handler answers HTTP 400 with body
`Error: Missing private key from site installation`, signs no token and
issues no redirect. -/
theorem callback_missing_private_key (env : CallbackEnv) (code state : Option String)
    (hcid : falsyStr env.config.client_id = false)
    (hcs : falsyStr env.config.client_secret = false)
    (hdom : falsyStr env.config.okta_domain = false)
    (hok : respOk env.oktaResponse = true)
    (hat : falsyStr env.oktaResponse.access_token = false)
    (hkey : falsyStr env.signingKey = true) :
    (handleVisitorAuthResponse env code state).1 =
      HandlerResult.resp 400 "Error: Missing private key from site installation" ∧
    (∀ p, Effect.signToken p ∉ (handleVisitorAuthResponse env code state).2) ∧
    (∀ u, (handleVisitorAuthResponse env code state).1 ≠ HandlerResult.redirect u) := by
  simp [handleVisitorAuthResponse, hcid, hcs, hdom, hok, hat, hkey]

/-- C10 witness: the missing-key branch evaluated on a concrete environment. -/
theorem callback_missing_private_key_witness :
    (handleVisitorAuthResponse { envA with signingKey := none } none none).1 =
      HandlerResult.resp 400 "Error: Missing private key from site installation" :=
  (callback_missing_private_key _ none none (by decide) (by decide) (by decide)
    (by decide) (by decide) (by decide)).1

/-- C4: the payload handed to the signing primitive is exactly the decoded
claims with `iat` and `exp` removed, plus a fresh `exp` equal to the
current time in seconds plus 3600; every other claim passes through
unchanged. -/
theorem resignPayload_spec (claims : List (String × ClaimValue)) (now : Int) :
    (∀ k v, k ≠ "iat" → k ≠ "exp" →
      ((k, v) ∈ resignPayload claims now ↔ (k, v) ∈ claims)) ∧
    ("exp", ClaimValue.num (now + 3600)) ∈ resignPayload claims now ∧
    (∀ v, ("iat", v) ∉ resignPayload claims now) ∧
    (∀ v, ("exp", v) ∈ resignPayload claims now → v = ClaimValue.num (now + 3600)) := by
  refine ⟨?_, ?_, ?_, ?_⟩
  · intro k v hki hke
    simp [resignPayload, sanitizeJWTTokenClaims, List.mem_filter, List.mem_append, hki, hke]
  · simp [resignPayload]
  · intro v
    simp [resignPayload, sanitizeJWTTokenClaims, List.mem_filter, List.mem_append]
  · intro v hv
    simp only [resignPayload, List.mem_append, List.mem_singleton] at hv
    rcases hv with h | h
    · exfalso
      simp [sanitizeJWTTokenClaims, List.mem_filter] at h
    · exact congrArg Prod.snd h

/-- C4 witness: a passed-through claim of a concrete claims object is in
the re-signed payload. -/
theorem resignPayload_spec_witness :
    ("sub", ClaimValue.str "u1") ∈
      resignPayload [("sub", ClaimValue.str "u1"), ("iat", ClaimValue.num 1000),
                     ("exp", ClaimValue.num 2000)] 1700000000 :=
  ((resignPayload_spec _ 1700000000).1 "sub" (ClaimValue.str "u1")
    (by decide) (by decide)).mpr (by simp)

/-- C9: with `client_id` and `okta_domain` present, the initiate-visitor-auth
handler redirects to the authorize URL of the Okta domain carrying exactly
`client_id`, `response_type=code`, the callback `redirect_uri`,
`response_mode=query`, `scope=openid` and `state=state-{location}`; with
either value absent, it throws `OIDC configuration is missing` and builds
no redirect. -/
theorem fetch_visitor_authentication_spec
    (config : OktaSiteInstallationConfiguration) (installationURL : String)
    (eventLocation : Option String) :
    (∀ cid dom, config.client_id = some cid → cid ≠ "" →
      config.okta_domain = some dom → dom ≠ "" →
      fetch_visitor_authentication config installationURL eventLocation =
        Except.ok
          { base := "https://" ++ dom ++ "/oauth2/v1/authorize",
            params := [("client_id", cid),
                       ("response_type", "code"),
                       ("redirect_uri", installationURL ++ "/visitor-auth/response"),
                       ("response_mode", "query"),
                       ("scope", "openid"),
                       ("state", "state-" ++ eventLocation.getD "")] }) ∧
    (falsyStr config.client_id = true ∨ falsyStr config.okta_domain = true →
      fetch_visitor_authentication config installationURL eventLocation =
        Except.error "OIDC configuration is missing") := by
  constructor
  · intro cid dom hcid hcidne hdom hdomne
    cases eventLocation with
    | none =>
      simp [fetch_visitor_authentication, falsyStr, hcid, hdom, hcidne, hdomne]
    | some s =>
      by_cases hs : s = "" <;>
        simp [fetch_visitor_authentication, falsyStr, hcid, hdom, hcidne, hdomne, hs]
  · intro h
    rcases h with h | h <;> simp [fetch_visitor_authentication, h]

/-- C9 witness: a concrete configuration produces the exact authorize URL. -/
theorem fetch_visitor_authentication_spec_witness :
    fetch_visitor_authentication
      { client_id := some "cid", okta_domain := some "acme.okta.com",
        client_secret := some "sec" }
      "https://app.example.com/i/okta" (some "/docs") =
      Except.ok
        { base := "https://acme.okta.com/oauth2/v1/authorize",
          params := [("client_id", "cid"),
                     ("response_type", "code"),
                     ("redirect_uri", "https://app.example.com/i/okta/visitor-auth/response"),
                     ("response_mode", "query"),
                     ("scope", "openid"),
                     ("state", "state-/docs")] } :=
  (fetch_visitor_authentication_spec _ _ _).1 "cid" "acme.okta.com"
    rfl (by decide) rfl (by decide)

/-- C6: `shouldUpdateGitLabWebHook` is true exactly when the project, the
auth token or the host changed, or the previous status was `Pending`, the
previous configuration had no ref and the new one has a ref; in particular
it is false on identical configurations with previous status `Active`. -/
theorem shouldUpdateGitLabWebHook_iff
    (newConf : GitLabSpaceInstallationConfiguration)
    (previousStatus : IntegrationInstallationStatus)
    (previousConf : GitLabSpaceInstallationConfiguration) :
    (shouldUpdateGitLabWebHook newConf previousStatus previousConf = true ↔
      (newConf.project ≠ previousConf.project ∨
       newConf.auth_token ≠ previousConf.auth_token ∨
       newConf.gitlab_host ≠ previousConf.gitlab_host ∨
       (previousStatus = IntegrationInstallationStatus.Pending ∧
        falsyStr previousConf.ref = true ∧ truthyStr newConf.ref = true))) ∧
    (∀ c : GitLabSpaceInstallationConfiguration,
      shouldUpdateGitLabWebHook c IntegrationInstallationStatus.Active c = false) := by
  constructor
  · simp [shouldUpdateGitLabWebHook, or_assoc, and_assoc]
  · intro c
    simp [shouldUpdateGitLabWebHook]

/-- C6 witness: identical empty configurations with previous status
`Active` yield false. -/
theorem shouldUpdateGitLabWebHook_iff_witness :
    shouldUpdateGitLabWebHook gNone IntegrationInstallationStatus.Active gNone = false :=
  (shouldUpdateGitLabWebHook_iff gNone IntegrationInstallationStatus.Active gNone).2 gNone

/-- C7: a `space_installation_setup` event with status `Pending` performs
no webhook action and raises no error. -/
theorem setup_pending_noop (event : SpaceInstallationSetupEvent)
    (configuration : Option GitLabSpaceInstallationConfiguration)
    (publicEndpoint : String) (newHookId : Nat)
    (h : event.status = IntegrationInstallationStatus.Pending) :
    handleSpaceInstallationSetupEvent event configuration publicEndpoint newHookId =
      Except.ok [] := by
  simp [handleSpaceInstallationSetupEvent, h]

/-- C7 witness: a concrete pending event is a no-op. -/
theorem setup_pending_noop_witness :
    handleSpaceInstallationSetupEvent
      { status := IntegrationInstallationStatus.Pending, installationId := "i1",
        spaceId := "s1",
        previous := { status := IntegrationInstallationStatus.Pending,
                      configuration := none } }
      (some gNone) "https://x" 7 = Except.ok [] :=
  setup_pending_noop _ (some gNone) "https://x" 7 rfl

/-- C8: when `shouldUpdateGitLabWebHook` is true for an active setup event
with valid project and auth token, the run succeeds; the previous webhook
is uninstalled exactly when the previous configuration carries a (truthy)
webhook id, and only that webhook; every uninstall precedes the install of
the new webhook; and the new webhook id is persisted back into the
installation configuration. -/
theorem setup_update_replaces_webhook (event : SpaceInstallationSetupEvent)
    (conf pc : GitLabSpaceInstallationConfiguration)
    (publicEndpoint : String) (newHookId : Nat)
    (hs : event.status = IntegrationInstallationStatus.Active)
    (hp : falsyStr conf.project = false)
    (ht : falsyStr conf.auth_token = false)
    (hprev : event.previous.configuration = some pc)
    (hupd : shouldUpdateGitLabWebHook conf event.previous.status pc = true) :
    (handleSpaceInstallationSetupEvent event (some conf) publicEndpoint newHookId =
      Except.ok (okTrace (handleSpaceInstallationSetupEvent event (some conf)
        publicEndpoint newHookId))) ∧
    ((∃ hid c, WebhookAction.uninstall hid c ∈
        okTrace (handleSpaceInstallationSetupEvent event (some conf) publicEndpoint
          newHookId)) ↔ truthyNum pc.hook_id = true) ∧
    (∀ hid c, WebhookAction.uninstall hid c ∈
        okTrace (handleSpaceInstallationSetupEvent event (some conf) publicEndpoint
          newHookId) → pc.hook_id = some hid ∧ c = pc) ∧
    (∀ i j hid c u c2,
      (okTrace (handleSpaceInstallationSetupEvent event (some conf) publicEndpoint
        newHookId)).get? i = some (WebhookAction.uninstall hid c) →
      (okTrace (handleSpaceInstallationSetupEvent event (some conf) publicEndpoint
        newHookId)).get? j = some (WebhookAction.install u c2) →
      i < j) ∧
    WebhookAction.updateConfig { conf with hook_id := some newHookId } ∈
      okTrace (handleSpaceInstallationSetupEvent event (some conf) publicEndpoint
        newHookId) := by
  have hsp : (event.status == IntegrationInstallationStatus.Pending) = false := by
    rw [hs]; decide
  have hsa : (event.status == IntegrationInstallationStatus.Active) = true := by
    rw [hs]; decide
  rcases hhid : pc.hook_id with _ | h
  · have hrun : handleSpaceInstallationSetupEvent event (some conf) publicEndpoint
        newHookId =
        Except.ok [WebhookAction.install (publicEndpoint ++ "/webhook") conf,
                   WebhookAction.updateConfig { conf with hook_id := some newHookId }] := by
      simp [handleSpaceInstallationSetupEvent, hsp, hsa, hp, ht, hprev, hupd, hhid]
    simp only [hrun, okTrace]
    refine ⟨by trivial, ?_, ?_, ?_, ?_⟩
    · simp [truthyNum]
    · intro hid c hmem
      simp at hmem
    · intro i j hid c u c2 hg1 hg2
      rcases i with _ | _ | i <;> simp_all
    · simp
  · by_cases h0 : h = 0
    · subst h0
      have hrun : handleSpaceInstallationSetupEvent event (some conf) publicEndpoint
          newHookId =
          Except.ok [WebhookAction.install (publicEndpoint ++ "/webhook") conf,
                     WebhookAction.updateConfig { conf with hook_id := some newHookId }] := by
        simp [handleSpaceInstallationSetupEvent, hsp, hsa, hp, ht, hprev, hupd, hhid]
      simp only [hrun, okTrace]
      refine ⟨by trivial, ?_, ?_, ?_, ?_⟩
      · simp [truthyNum]
      · intro hid c hmem
        simp at hmem
      · intro i j hid c u c2 hg1 hg2
        rcases i with _ | _ | i <;> simp_all
      · simp
    · have hrun : handleSpaceInstallationSetupEvent event (some conf) publicEndpoint
          newHookId =
          Except.ok [WebhookAction.uninstall h pc,
                     WebhookAction.install (publicEndpoint ++ "/webhook") conf,
                     WebhookAction.updateConfig { conf with hook_id := some newHookId }] := by
        simp [handleSpaceInstallationSetupEvent, hsp, hsa, hp, ht, hprev, hupd, hhid, h0]
      simp only [hrun, okTrace]
      refine ⟨by trivial, ?_, ?_, ?_, ?_⟩
      · simp [truthyNum, h0]
      · intro hid c hmem
        simp at hmem
        exact ⟨hmem.1 ▸ rfl, hmem.2⟩
      · intro i j hid c u c2 hg1 hg2
        rcases i with _ | _ | _ | i <;> rcases j with _ | _ | _ | j <;> simp_all
      · simp

/-- C8 witness: on a concrete project change, the new webhook id 7 is
persisted into the configuration. -/
theorem setup_update_replaces_webhook_witness :
    WebhookAction.updateConfig { gA with hook_id := some 7 } ∈
      okTrace (handleSpaceInstallationSetupEvent evActive (some gA) "https://x" 7) :=
  (setup_update_replaces_webhook evActive gA gPrev "https://x" 7 rfl (by decide)
    (by decide) rfl (by decide)).2.2.2.2

end Integrations
